import Mathlib

/-!
Verification development for the web-obfuscator job server (`src/server.js`).

The server orchestrates: preset configuration selection, source-code wrapping
(anti-bypass guard, password gate), invocation of an external obfuscation
engine, artifact persistence, progress reporting over a socket, and a
retention sweep of old uploads.  Each definition below is a shallow embedding
of the corresponding JavaScript function; side effects (socket emissions,
file writes) are made explicit as returned values, randomness is made
explicit as function arguments, and exceptions are modelled with `Except`.
-/

/-- The `lock` sub-record of an obfuscation configuration.  Each field is
`Option Bool`: `none` models a key that is absent from the object literal
(js-confuser treats an absent guard as disabled). -/
structure LockPolicy where
  selfDefending : Option Bool := none
  antiDebug : Option Bool := none
  integrity : Option Bool := none
  tamperProtection : Option Bool := none
  deriving Repr, DecidableEq

/-- The random draws one invocation of an identifier generator makes.
`lenDraw` and `charDraws` model successive `Math.floor(Math.random() * k)`
results (taken modulo `k` here); `base36Tail` models the string
`Math.random().toString(36).substring(7)` used by the nova generator, whose
floating-point rendering is kept abstract. -/
structure RandDraws where
  lenDraw : Nat
  charDraws : List Nat
  base36Tail : String

/-- A value stored under one key of a configuration object literal:
a boolean, a number, a string, an identifier-generator closure, or the
nested `lock` record. -/
inductive ConfigVal where
  | vbool : Bool → ConfigVal
  | vnum : ℚ → ConfigVal
  | vstr : String → ConfigVal
  | vgen : (RandDraws → String) → ConfigVal
  | vlock : LockPolicy → ConfigVal

/-- A configuration object literal: its key/value pairs in source order. -/
def Config := List (String × ConfigVal)

/-- Look up a key of a configuration. -/
def Config.get (c : Config) (k : String) : Option ConfigVal :=
  List.lookup k c

/-- Whether a configuration object has the given key. -/
def Config.hasKey (c : Config) (k : String) : Bool :=
  (Config.get c k).isSome

/-- The `lock` record of a configuration, when present. -/
def Config.lock (c : Config) : Option LockPolicy :=
  match Config.get c "lock" with
  | some (ConfigVal.vlock l) => some l
  | _ => none

/-- Function `getUltraSafeConfig` (src/server.js:109-134). -/
def getUltraSafeConfig : Config :=
  [("target", .vstr "node"),
   ("calculator", .vbool true),
   ("compact", .vbool true),
   ("hexadecimalNumbers", .vbool true),
   ("controlFlowFlattening", .vnum 1),
   ("deadCode", .vnum 1),
   ("dispatcher", .vbool true),
   ("duplicateLiteralsRemoval", .vnum 1),
   ("flatten", .vbool true),
   ("globalConcealing", .vbool true),
   ("identifierGenerator", .vstr "zeroWidth"),
   ("renameVariables", .vbool true),
   ("renameGlobals", .vbool true),
   ("minify", .vbool true),
   ("movedDeclarations", .vbool true),
   ("objectExtraction", .vbool true),
   ("opaquePredicates", .vnum (3/4)),
   ("stringConcealing", .vbool true),
   ("stringCompression", .vbool true),
   ("stringEncoding", .vbool true),
   ("stringSplitting", .vnum (3/4)),
   ("rgf", .vbool false)]

/-- Alphabet used by the nebula generator (src/server.js:138). -/
def nebulaChars : List Char :=
  "abcdefghijklmnopqrstuvwxyzABCDEFGHIJKLMNOPQRSTUVWXYZ".data

/-- Generator `generateNebulaName` (src/server.js:137-145): `"NX"` plus four random
letters. -/
def generateNebulaName (r : RandDraws) : String :=
  let randomPart := String.mk ((List.range 4).map (fun i =>
    nebulaChars.getD (r.charDraws.getD i 0 % nebulaChars.length) 'a'))
  "NX" ++ randomPart

/-- Function `getNebulaObfuscationConfig` (src/server.js:136-174). -/
def getNebulaObfuscationConfig : Config :=
  [("target", .vstr "node"),
   ("compact", .vbool true),
   ("renameVariables", .vbool true),
   ("renameGlobals", .vbool true),
   ("identifierGenerator", .vgen generateNebulaName),
   ("stringCompression", .vbool true),
   ("stringConcealing", .vbool false),
   ("stringEncoding", .vbool true),
   ("stringSplitting", .vbool false),
   ("controlFlowFlattening", .vnum 1),
   ("flatten", .vbool true),
   ("shuffle", .vbool true),
   ("rgf", .vbool true),
   ("deadCode", .vbool true),
   ("opaquePredicates", .vbool true),
   ("dispatcher", .vbool true),
   ("globalConcealing", .vbool true),
   ("objectExtraction", .vbool true),
   ("duplicateLiteralsRemoval", .vbool true),
   ("lock", .vlock { selfDefending := some true, antiDebug := some true,
                     integrity := some true, tamperProtection := some true })]

/-- Generator `generateNovaName` (src/server.js:177-179): the literal `"var_"` followed
by `Math.random().toString(36).substring(7)` (kept abstract in
`RandDraws.base36Tail`). -/
def generateNovaName (r : RandDraws) : String :=
  "var_" ++ r.base36Tail

/-- Function `getNovaObfuscationConfig` (src/server.js:176-208).  Note its `lock`
record sets only `antiDebug`, `integrity` and `selfDefending`; there is no
`tamperProtection` key. -/
def getNovaObfuscationConfig : Config :=
  [("target", .vstr "node"),
   ("calculator", .vbool false),
   ("compact", .vbool true),
   ("controlFlowFlattening", .vnum 1),
   ("deadCode", .vnum 1),
   ("dispatcher", .vbool true),
   ("duplicateLiteralsRemoval", .vnum 1),
   ("flatten", .vbool true),
   ("globalConcealing", .vbool true),
   ("hexadecimalNumbers", .vnum 1),
   ("identifierGenerator", .vgen generateNovaName),
   ("lock", .vlock { antiDebug := some true, integrity := some true,
                     selfDefending := some true }),
   ("minify", .vbool true),
   ("movedDeclarations", .vbool true),
   ("objectExtraction", .vbool true),
   ("opaquePredicates", .vbool true),
   ("renameGlobals", .vbool true),
   ("renameVariables", .vbool true),
   ("shuffle", .vbool true),
   ("stack", .vbool true),
   ("stringCompression", .vbool true),
   ("stringConcealing", .vbool true)]

/-- Alphabet used by the arab generator (src/server.js:211-214). -/
def arabicChars : List Char :=
  ['أ','ب','ت','ث','ج','ح','خ','د','ذ','ر','ز','س','ش','ص','ض','ط','ظ',
   'ع','غ','ف','ق','ك','ل','م','ن','ه','و','ي']

/-- Generator `generateArabicName` (src/server.js:216-223): a name of random length in
[3,6] drawn from the Arabic alphabet. -/
def generateArabicName (r : RandDraws) : String :=
  let length := r.lenDraw % 4 + 3
  String.mk ((List.range length).map (fun i =>
    arabicChars.getD (r.charDraws.getD i 0 % arabicChars.length) 'أ'))

/-- Function `getArabObfuscationConfig` (src/server.js:210-246). -/
def getArabObfuscationConfig : Config :=
  [("target", .vstr "node"),
   ("compact", .vbool true),
   ("renameVariables", .vbool true),
   ("renameGlobals", .vbool true),
   ("identifierGenerator", .vgen generateArabicName),
   ("stringEncoding", .vbool true),
   ("stringSplitting", .vbool true),
   ("controlFlowFlattening", .vnum 1),
   ("shuffle", .vbool true),
   ("duplicateLiteralsRemoval", .vbool true),
   ("deadCode", .vbool true),
   ("calculator", .vbool true),
   ("opaquePredicates", .vbool true),
   ("lock", .vlock { selfDefending := some true, antiDebug := some true,
                     integrity := some true, tamperProtection := some true })]

/-- Alphabet used by the japan×arab generator (src/server.js:249-255):
Japanese kana interleaved with the Arabic letters. -/
def japaneseXArabChars : List Char :=
  ['あ','い','う','え','お','か','き','く','け','こ','さ','し','す','せ','そ',
   'た','ち','つ','て','と','な','に','ぬ','ね','の','は','ひ','ふ','へ','ほ',
   'ま','み','む','め','も','や','ゆ','よ','أ','ب','ت','ث','ج','ح','خ','د','ذ',
   'ر','ز','س','ش','ص','ض','ط','ظ','ع','غ','ف','ق','ك','ل','م','ن','ه','و','ي',
   'ら','り','る','れ','ろ','わ','を','ん']

/-- Generator `generateJapaneseXArabName` (src/server.js:256-263). -/
def generateJapaneseXArabName (r : RandDraws) : String :=
  let length := r.lenDraw % 4 + 3
  String.mk ((List.range length).map (fun i =>
    japaneseXArabChars.getD (r.charDraws.getD i 0 % japaneseXArabChars.length) 'あ'))

/-- Function `getJapanxArabObfuscationConfig` (src/server.js:248-290).  Defined in the
source but never referenced by the preset-resolution chain. -/
def getJapanxArabObfuscationConfig : Config :=
  [("target", .vstr "node"),
   ("compact", .vbool true),
   ("renameVariables", .vbool true),
   ("renameGlobals", .vbool true),
   ("identifierGenerator", .vgen generateJapaneseXArabName),
   ("stringCompression", .vbool true),
   ("stringConcealing", .vbool true),
   ("stringEncoding", .vbool true),
   ("stringSplitting", .vbool true),
   ("controlFlowFlattening", .vnum 1),
   ("flatten", .vbool true),
   ("shuffle", .vbool true),
   ("rgf", .vbool false),
   ("dispatcher", .vbool true),
   ("duplicateLiteralsRemoval", .vbool true),
   ("deadCode", .vbool true),
   ("calculator", .vbool true),
   ("opaquePredicates", .vbool true),
   ("lock", .vlock { selfDefending := some true, antiDebug := some true,
                     integrity := some true, tamperProtection := some true })]

/-- Alphabet used by the japan generator (src/server.js:293-297). -/
def japaneseChars : List Char :=
  ['あ','い','う','え','お','か','き','く','け','こ','さ','し','す','せ','そ',
   'た','ち','つ','て','と','な','に','ぬ','ね','の','は','ひ','ふ','へ','ほ',
   'ま','み','む','め','も','や','ゆ','よ','ら','り','る','れ','ろ','わ','を','ん']

/-- Generator `generateJapaneseName` (src/server.js:298-305). -/
def generateJapaneseName (r : RandDraws) : String :=
  let length := r.lenDraw % 4 + 3
  String.mk ((List.range length).map (fun i =>
    japaneseChars.getD (r.charDraws.getD i 0 % japaneseChars.length) 'あ'))

/-- Function `getJapanObfuscationConfig` (src/server.js:292-329). -/
def getJapanObfuscationConfig : Config :=
  [("target", .vstr "node"),
   ("compact", .vbool true),
   ("renameVariables", .vbool true),
   ("renameGlobals", .vbool true),
   ("identifierGenerator", .vgen generateJapaneseName),
   ("stringEncoding", .vbool true),
   ("stringSplitting", .vbool true),
   ("controlFlowFlattening", .vnum 1),
   ("flatten", .vbool true),
   ("shuffle", .vbool true),
   ("duplicateLiteralsRemoval", .vbool true),
   ("deadCode", .vbool true),
   ("calculator", .vbool true),
   ("opaquePredicates", .vbool true),
   ("lock", .vlock { selfDefending := some true, antiDebug := some true,
                     integrity := some true, tamperProtection := some true })]

/-- Function `getDefaultConfig` is called at src/server.js:430 (preset fallback) and
src/server.js:404 (password branch) but is defined nowhere in the program;
in JavaScript the call throws `ReferenceError: getDefaultConfig is not
defined`, modelled here as an `Except.error`. -/
def getDefaultConfig : Except String Config :=
  .error "getDefaultConfig is not defined"

/-- JavaScript `String.prototype.toLowerCase`, character by character (the
preset names compared against are plain ASCII). -/
def jsToLowerCase (s : String) : String :=
  String.mk (s.data.map Char.toLower)

/-- The preset-resolution chain of the `start` handler (src/server.js:426-430):
`(preset || "").toLowerCase()` is compared against the four wired preset
names; any other value falls through to `getDefaultConfig()`.  The result is
in `Except` because the fallthrough call throws. -/
def resolvePreset (preset : Option String) : Except String Config :=
  let p := jsToLowerCase (preset.getD "")
  if p = "nova" then .ok getNovaObfuscationConfig
  else if p = "nebula" then .ok getNebulaObfuscationConfig
  else if p = "arab" then .ok getArabObfuscationConfig
  else if p = "japan" then .ok getJapanObfuscationConfig
  else getDefaultConfig


/- ===== base64 and UTF-8 (Node `Buffer.from(s).toString("base64")` and
   `Buffer.from(e, "base64").toString("utf8")`, src/server.js:366,402) ===== -/

/-- The base64 alphabet. -/
def base64Chars : List Char :=
  "ABCDEFGHIJKLMNOPQRSTUVWXYZabcdefghijklmnopqrstuvwxyz0123456789+/".data

/-- The base64 digit for a 6-bit value. -/
def base64Char (n : Nat) : Char := base64Chars.getD n 'A'

/-- The 6-bit value of a base64 digit (64 for characters outside the
alphabet, such as the padding character). -/
def base64Idx (c : Char) : Nat := base64Chars.indexOf c

/-- Standard base64 encoding of a byte sequence, three bytes at a time, with
`=` padding. -/
def base64EncodeBytes : List Nat → List Char
  | [] => []
  | [a] => [base64Char (a / 4), base64Char (a % 4 * 16), '=', '=']
  | [a, b] => [base64Char (a / 4), base64Char (a % 4 * 16 + b / 16),
               base64Char (b % 16 * 4), '=']
  | a :: b :: c :: rest =>
      base64Char (a / 4) :: base64Char (a % 4 * 16 + b / 16) ::
      base64Char (b % 16 * 4 + c / 64) :: base64Char (c % 64) ::
      base64EncodeBytes rest

/-- Node `Buffer.from(bytes).toString("base64")`. -/
def base64Encode (bs : List Nat) : String := String.mk (base64EncodeBytes bs)

/-- Standard base64 decoding, four digits at a time, honouring `=` padding. -/
def base64DecodeChars : List Char → List Nat
  | c1 :: c2 :: c3 :: c4 :: rest =>
      (base64Idx c1 * 4 + base64Idx c2 / 16) ::
      ((if c3 = '=' then [] else
        (base64Idx c2 % 16 * 16 + base64Idx c3 / 4) ::
        (if c4 = '=' then [] else [base64Idx c3 % 4 * 64 + base64Idx c4])) ++
       base64DecodeChars rest)
  | _ => []

/-- Node `Buffer.from(s, "base64")`. -/
def base64Decode (s : String) : List Nat := base64DecodeChars s.data

/-- UTF-8 encoding of one code point. -/
def utf8Char (c : Nat) : List Nat :=
  if c < 128 then [c]
  else if c < 2048 then [192 + c / 64, 128 + c % 64]
  else if c < 65536 then [224 + c / 4096, 128 + c / 64 % 64, 128 + c % 64]
  else [240 + c / 262144, 128 + c / 4096 % 64, 128 + c / 64 % 64, 128 + c % 64]

/-- The UTF-8 bytes of a string (what `Buffer.from(password)` yields). -/
def utf8Bytes (s : String) : List Nat :=
  s.data.flatMap (fun ch => utf8Char ch.val.toNat)

theorem base64Idx_base64Char : ∀ n, n < 64 → base64Idx (base64Char n) = n := by
  decide

theorem base64Char_ne_pad : ∀ n, n < 64 → base64Char n ≠ '=' := by
  decide

/-- Decoding inverts encoding on byte sequences. -/
theorem base64_roundtrip : ∀ bs : List Nat, (∀ b ∈ bs, b < 256) →
    base64DecodeChars (base64EncodeBytes bs) = bs
  | [], _ => by simp [base64EncodeBytes, base64DecodeChars]
  | [a], h => by
      have ha : a < 256 := h a (by simp)
      have h1 := base64Idx_base64Char (a / 4) (by omega)
      have h2 := base64Idx_base64Char (a % 4 * 16) (by omega)
      simp [base64EncodeBytes, base64DecodeChars, h1, h2]
      omega
  | [a, b], h => by
      have ha : a < 256 := h a (by simp)
      have hb : b < 256 := h b (by simp)
      have h1 := base64Idx_base64Char (a / 4) (by omega)
      have h2 := base64Idx_base64Char (a % 4 * 16 + b / 16) (by omega)
      have h3 := base64Idx_base64Char (b % 16 * 4) (by omega)
      have hne := base64Char_ne_pad (b % 16 * 4) (by omega)
      simp [base64EncodeBytes, base64DecodeChars, h1, h2, h3, hne]
      omega
  | a :: b :: c :: rest, h => by
      have ha : a < 256 := h a (by simp)
      have hb : b < 256 := h b (by simp)
      have hc : c < 256 := h c (by simp)
      have ih := base64_roundtrip rest (fun x hx => h x (by simp [hx]))
      have h1 := base64Idx_base64Char (a / 4) (by omega)
      have h2 := base64Idx_base64Char (a % 4 * 16 + b / 16) (by omega)
      have h3 := base64Idx_base64Char (b % 16 * 4 + c / 64) (by omega)
      have h4 := base64Idx_base64Char (c % 64) (by omega)
      have hne3 := base64Char_ne_pad (b % 16 * 4 + c / 64) (by omega)
      have hne4 := base64Char_ne_pad (c % 64) (by omega)
      simp [base64EncodeBytes, base64DecodeChars, h1, h2, h3, h4, hne3, hne4, ih]
      omega

/-- Every byte produced by `utf8Char` on a valid code point fits a byte. -/
theorem utf8Char_lt (c : Nat) (hc : c < 1114112) : ∀ b ∈ utf8Char c, b < 256 := by
  unfold utf8Char
  split_ifs <;> simp_all <;> omega

/-- Code points of Lean characters are valid Unicode scalar values. -/
theorem char_val_lt (c : Char) : c.val.toNat < 1114112 := by
  rcases c.valid with h | ⟨h1, h2⟩
  · exact Nat.lt_trans h (by norm_num)
  · exact h2

/-- UTF-8 bytes of a string are bytes. -/
theorem utf8Bytes_lt (s : String) : ∀ b ∈ utf8Bytes s, b < 256 := by
  intro b hb
  simp only [utf8Bytes, List.mem_flatMap] at hb
  obtain ⟨ch, _, hb⟩ := hb
  exact utf8Char_lt ch.val.toNat (char_val_lt ch) b hb

/-- base64 then decode recovers a password's UTF-8 bytes. -/
theorem base64_utf8_roundtrip (p : String) :
    base64Decode (base64Encode (utf8Bytes p)) = utf8Bytes p := by
  simpa [base64Decode, base64Encode] using
    base64_roundtrip (utf8Bytes p) (utf8Bytes_lt p)


/- ===== Code wrapper: anti-bypass guard and password gate
   (src/server.js:330-407) ===== -/

/-- The anti-bypass guard block `TByypas` (src/server.js:330-359), verbatim
(braces and apostrophes written with hexadecimal escapes). -/
def TByypas : String := "(async () => \x7b\n  const fs = require(\"fs\");\n  const path = require(\"path\");\n  const C = require(\"chalk\");\n  const A = require(\"axios\");\n  const pkg = JSON.parse(fs.readFileSync(path.join(process.cwd(), \"package.json\"), \"utf8\"));\n  let mainFile;\n  if (pkg.main) \x7b\n    mainFile = path.resolve(process.cwd(), pkg.main);\n  \x7d else if (pkg.scripts && pkg.scripts.start) \x7b\n    const parts = pkg.scripts.start.split(\" \");\n    mainFile = path.resolve(process.cwd(), parts[parts.length - 1]);\n  \x7d else \x7b\n    mainFile = process.argv[1];\n  \x7d\n  const snapshot = fs.readFileSync(mainFile, \"utf8\");\n  setInterval(() => \x7b\n    const now = fs.readFileSync(mainFile, \"utf8\");\n    if (snapshot !== now) \x7b\n      console.log(C.redBright(\"[ ⚠️ ] File sedang dirombak!\"));\n      process.abort();\n    \x7d\n  \x7d, 2000);\n  if (A.interceptors && A.interceptors.request.handlers.length > 0) \x7b\n    console.log(C.redBright(\"[ ⚠️ ] Axios interceptor detected!\"));\n    process.abort();\n  \x7d\n  Object.freeze(A);\n  Object.seal(A);\n\x7d)();"

/-- The password-gate template text between `${TByypas}` and
`${encodedPassword}` (src/server.js:362-366). -/
def gateBeforePassword : String := "\n(async () => \x7b\nconst readline = require(\x27readline\x27);\nconst chalk = require(\x27chalk\x27);\nconst passwordBuffer = Buffer.from(\x27"

/-- The password-gate template text between `${encodedPassword}` and
`${originalCode}` (src/server.js:366-378). -/
def gateAfterPassword : String := "\x27, \x27base64\x27);\nconst correctPassword = passwordBuffer.toString(\x27utf8\x27);\nconst rl = readline.createInterface(\x7b\n  input: process.stdin,\n  output: process.stdout\n\x7d);\nconsole.clear();\nconsole.log(chalk.bold.red(\"🔑 MASUKKAN PASSWORD:\"));\nrl.question(\x27> \x27, (inputPassword) => \x7b\n  if (inputPassword !== correctPassword) \x7b\n    console.log(chalk.bold.red(\"❌ PASSWORD SALAH\"));\n    process.exit(1);\n  \x7d\n"

/-- The password-gate template text after `${originalCode}`
(src/server.js:378-382). -/
def gateTail : String := "\n  rl.close();\n\x7d);\n\x7d)();"

/-- Function `createPasswordTemplate` (src/server.js:361-383): the template literal
with its three interpolations `${TByypas}`, `${encodedPassword}` and
`${originalCode}`. -/
def createPasswordTemplate (encodedPassword originalCode : String) : String :=
  TByypas ++ gateBeforePassword ++ encodedPassword ++ gateAfterPassword ++
    originalCode ++ gateTail

/-- JavaScript truthiness of an optional string value (`null`/`undefined`
and `""` are falsy). -/
def truthy : Option String → Bool
  | none => false
  | some s => !(s == "")

/-- The wrapped source text built by `obfuscateWithOptions`
(src/server.js:398-405): the value of `base` just before `obfuscateAndWrite`
is invoked at line 406. -/
def wrappedSource (code : String) (addAntiBypass : Bool)
    (password : Option String) : String :=
  let base := if addAntiBypass then TByypas ++ "\n" ++ code else code
  if truthy password then
    createPasswordTemplate (base64Encode (utf8Bytes (password.getD ""))) base
  else base

/-- Outcome of running the wrapped artifact's password gate. -/
inductive GateOutcome where
  | runPayload
  | exitCode (n : Nat)
  deriving Repr, DecidableEq

/-- Runtime semantics of the password-gate template (src/server.js:363-382),
modelled at the byte level: the gate decodes the embedded base64 literal with
`Buffer.from(encoded, "base64").toString("utf8")` and compares the entered
value against it; a mismatch prints and calls `process.exit(1)` without
reaching the payload, a match falls through into the payload. -/
def runPasswordGate (encodedPassword : String) (enteredBytes : List Nat) :
    GateOutcome :=
  let correctPassword := base64Decode encodedPassword
  if enteredBytes ≠ correctPassword then .exitCode 1 else .runPayload

/- ===== Engine result normalisation, persistence, and the start handler
   (src/server.js:386-450) ===== -/

/-- A value the external engine (`JsConfuser.obfuscate`) may resolve with:
a string; `null`; or an object carrying an optional `code` field, an
optional callable `toString` (its return value kept as data), and its
`JSON.stringify` serialization kept as data. -/
inductive JsValue where
  | vstr (s : String)
  | vnull
  | vobj (codeField : Option JsValue) (toStringResult : Option String)
         (json : String)

/-- The result-normalisation chain of `obfuscateAndWrite`
(src/server.js:388-392): use the result directly if it is a string; else its
`code` field if that is a string; else its callable `toString()`; else
`JSON.stringify` of the whole result (`JSON.stringify null` is `"null"`). -/
def normalizeResult : JsValue → String
  | .vstr s => s
  | .vnull => "null"
  | .vobj codeField toStringResult json =>
      match codeField with
      | some (.vstr c) => c
      | _ =>
        match toStringResult with
        | some t => t
        | none => json

/-- The environment one job runs in: whether the upload exists, the outcome
of reading it, the external engine as a black-box function of (source,
configuration), the outcome of the artifact write, and the two `Date.now()`
readings (identifier prefix at src/server.js:439, output filename at
src/server.js:393). -/
structure JobWorld where
  fileExists : Bool
  readResult : Except String String
  engine : String → Config → Except String JsValue
  writeResult : Except String Unit
  nowAtStart : Nat
  nowAtWrite : Nat

/-- Function `obfuscateAndWrite` (src/server.js:386-397): run the engine, normalise
its result, build the filename `<pfx><Date.now()>.js`, write the file, and
return the filename; the written file's content is returned alongside. -/
def obfuscateAndWrite (w : JobWorld) (code : String) (config : Config)
    (pfx : String) : Except String (String × String) :=
  match w.engine code config with
  | .error e => .error e
  | .ok result =>
      let obf := normalizeResult result
      let fname := pfx ++ toString w.nowAtWrite ++ ".js"
      match w.writeResult with
      | .error e => .error e
      | .ok _ => .ok (fname, obf)

/-- Function `obfuscateWithOptions` (src/server.js:398-407): wrap the code per the
anti-bypass flag and password, then obfuscate and persist.  (The
`presetConfig || getDefaultConfig()` fallback at line 404 is not reachable
through the one call site, which always passes a configuration object.) -/
def obfuscateWithOptions (w : JobWorld) (code : String) (presetConfig : Config)
    (addAntiBypass : Bool) (password : Option String) (pfx : String) :
    Except String (String × String) :=
  obfuscateAndWrite w (wrappedSource code addAntiBypass password)
    presetConfig pfx

/-- An event emitted on the client socket by the `start` handler. -/
inductive SockEvent where
  | progress (status : String) (percent : Nat)
  | done (filename : String) (download : String)
  | error (message : String)
  deriving Repr, DecidableEq

/-- The fields destructured from a `start` request (src/server.js:417). -/
structure StartData where
  file : Option String
  preset : Option String
  password : Option String
  antibypass : Bool

/-- The `start` handler (src/server.js:415-450): the ordered list of socket
events it emits and the artifact files (name, content) it writes.  Every
thrown error is caught by the handler's `try`/`catch`, which emits a single
`error` event. -/
def startHandler (w : JobWorld) (d : StartData) :
    List SockEvent × List (String × String) :=
  if !truthy d.file then ([.error "No file specified."], [])
  else if !w.fileExists then ([.error "File not found."], [])
  else
    let e1 := SockEvent.progress "Reading file..." 10
    match w.readResult with
    | .error msg => ([e1, .error msg], [])
    | .ok code =>
      let e2 := SockEvent.progress "Selecting preset..." 25
      match resolvePreset d.preset with
      | .error msg => ([e1, e2, .error msg], [])
      | .ok cfg =>
        let e3 := SockEvent.progress "Obfuscating..." 50
        match obfuscateWithOptions w code cfg d.antibypass
            (if truthy d.password then d.password else none)
            ("enc_" ++ toString w.nowAtStart ++ "_") with
        | .error msg => ([e1, e2, e3, .error msg], [])
        | .ok (outName, content) =>
            ([e1, e2, e3, .progress "Writing result..." 90,
              .done outName ("/download/" ++ outName),
              .progress "Finished!" 100],
             [(outName, content)])

/-- The percent values of the progress events in an event list, in order. -/
def progressPercents (evs : List SockEvent) : List Nat :=
  evs.filterMap (fun e =>
    match e with
    | .progress _ p => some p
    | _ => none)

/-- Whether an event is a progress event. -/
def SockEvent.isProgress : SockEvent → Bool
  | .progress _ _ => true
  | _ => false

/-- Whether an event is an error event. -/
def SockEvent.isError : SockEvent → Bool
  | .error _ => true
  | _ => false

/- ===== Retention sweep (src/server.js:454-474) ===== -/

/-- One directory entry as seen by the retention sweep: its name, whether it
is a regular file, its last-modified time, and whether the `stat` or
`remove` call on it throws. -/
structure DirFile where
  name : String
  isFile : Bool
  mtimeMs : Int
  statFails : Bool
  removeFails : Bool
  deriving Repr, DecidableEq

/-- The body of the per-file loop of `cleanupOldFiles`
(src/server.js:459-468): a failing `stat` skips the entry; a regular file
strictly older than the cutoff is removed unless `remove` itself throws;
everything else is left in place.  Returns the accumulated removed names. -/
def sweepStep (nowMs cutoff : Int) (removed : List String) (f : DirFile) :
    List String :=
  if f.statFails then removed
  else if f.isFile && decide (nowMs - f.mtimeMs > cutoff) then
    if f.removeFails then removed else removed ++ [f.name]
  else removed

/-- Function `cleanupOldFiles` (src/server.js:454-472): names of the files removed.
The outer `try` turns a directory-listing failure into a logged no-op; the
inner `try` confines a per-file failure to that file. -/
def cleanupOldFiles (readdirResult : Except String (List DirFile))
    (nowMs : Int) (olderThanDays : Int) : List String :=
  match readdirResult with
  | .error _ => []
  | .ok files =>
      let cutoff := olderThanDays * 24 * 60 * 60 * 1000
      files.foldl (sweepStep nowMs cutoff) []

/-- Whether the sweep removes a given entry. -/
def sweepRemoves (nowMs cutoff : Int) (f : DirFile) : Bool :=
  !f.statFails && (f.isFile && decide (nowMs - f.mtimeMs > cutoff)) &&
    !f.removeFails

/- ===== Concrete job fixtures used by witnesses ===== -/

/-- A job environment in which every external step succeeds. -/
def okWorld : JobWorld :=
  { fileExists := true
    readResult := .ok "console.log(1)"
    engine := fun _ _ => .ok (.vstr "OBF")
    writeResult := .ok ()
    nowAtStart := 1
    nowAtWrite := 2 }

/-- A start request selecting the nova preset. -/
def novaStart : StartData :=
  { file := some "a.js", preset := some "nova", password := none,
    antibypass := false }

/-- A start request naming a preset outside the wired four. -/
def unknownPresetStart : StartData :=
  { file := some "a.js", preset := some "mystery", password := none,
    antibypass := false }

/-- An environment whose upload file is missing. -/
def missingFileWorld : JobWorld :=
  { okWorld with fileExists := false }

/-- A directory listing with one stale healthy file, one stale file whose
`stat` throws, and one fresh file. -/
def demoDir : List DirFile :=
  [{ name := "old.js", isFile := true, mtimeMs := 0,
     statFails := false, removeFails := false },
   { name := "broken.js", isFile := true, mtimeMs := 0,
     statFails := true, removeFails := false },
   { name := "new.js", isFile := true, mtimeMs := 999999999999,
     statFails := false, removeFails := false }]

/- ===== Claims ===== -/

/-- C1: the claim says an absent, empty, or unrecognized preset name resolves
to the documented baseline configuration and the job proceeds; in the code
the fallback branch calls `getDefaultConfig()`, which is not defined anywhere
(`getUltraSafeConfig` exists but is never called), so resolution throws a
`ReferenceError` and the job ends in an `error` event after the 10% and 25%
progress events, with no artifact written. -/
theorem c1_default_preset_throws :
    resolvePreset none = .error "getDefaultConfig is not defined" ∧
    resolvePreset (some "") = .error "getDefaultConfig is not defined" ∧
    resolvePreset (some "mystery") = .error "getDefaultConfig is not defined" ∧
    startHandler okWorld unknownPresetStart =
      ([.progress "Reading file..." 10, .progress "Selecting preset..." 25,
        .error "getDefaultConfig is not defined"], []) :=
  ⟨rfl, rfl, rfl, rfl⟩

/-- C2 counterexample: the nova configuration's lock policy does not enable
all four guards — its object literal (src/server.js:192-196) has no
`tamperProtection` key. -/
theorem c2_counterexample :
    ¬ ∃ l, Config.lock getNovaObfuscationConfig = some l ∧
        l.selfDefending = some true ∧ l.antiDebug = some true ∧
        l.integrity = some true ∧ l.tamperProtection = some true := by
  rintro ⟨l, hl, -, -, -, h4⟩
  rw [show Config.lock getNovaObfuscationConfig =
      some { antiDebug := some true, integrity := some true,
             selfDefending := some true } from rfl] at hl
  injection hl with h
  subst h
  simp at h4

/-- C2 (amended): the configuration returned for the preset name "nova"
contains a lock policy enabling three guards — self-defense, anti-debug and
integrity-check — and leaves tamper-protection unset. -/
theorem c2_nova_lock :
    Config.lock getNovaObfuscationConfig =
      some { selfDefending := some true, antiDebug := some true,
             integrity := some true, tamperProtection := none } := rfl

/-- C6: a start request naming an upload that does not exist yields exactly
one event, a terminal `error` event with the not-found message, with no
progress events and no artifact write. -/
theorem c6_missing_file (w : JobWorld) (d : StartData)
    (hfile : truthy d.file = true) (hexists : w.fileExists = false) :
    startHandler w d = ([.error "File not found."], []) ∧
    ((startHandler w d).1.filter SockEvent.isError).length = 1 ∧
    (∀ e ∈ (startHandler w d).1, e.isProgress = false) ∧
    (startHandler w d).2 = [] := by
  have h : startHandler w d = ([.error "File not found."], []) := by
    unfold startHandler
    rw [hfile, hexists]
    rfl
  refine ⟨h, ?_, ?_, ?_⟩ <;> simp [h, SockEvent.isError, SockEvent.isProgress]

/-- C6 witness: the not-found behaviour at a concrete world and request. -/
theorem c6_missing_file_witness :
    startHandler missingFileWorld novaStart = ([.error "File not found."], []) :=
  (c6_missing_file missingFileWorld novaStart rfl rfl).1

/-- C7: of the six preset names the claim lists as recognized, only nova,
nebula, arab and japan are wired to their configurations (each of which does
contain a `target` key, as do the orphaned ultra-safe and japan×arab
configurations); the names "ultra-safe" and "japan×arab" fall through to the
undefined `getDefaultConfig()` and throw instead of resolving. -/
theorem c7_resolution_gap :
    resolvePreset (some "nova") = .ok getNovaObfuscationConfig ∧
    resolvePreset (some "nebula") = .ok getNebulaObfuscationConfig ∧
    resolvePreset (some "arab") = .ok getArabObfuscationConfig ∧
    resolvePreset (some "japan") = .ok getJapanObfuscationConfig ∧
    Config.hasKey getNovaObfuscationConfig "target" = true ∧
    Config.hasKey getNebulaObfuscationConfig "target" = true ∧
    Config.hasKey getArabObfuscationConfig "target" = true ∧
    Config.hasKey getJapanObfuscationConfig "target" = true ∧
    Config.hasKey getUltraSafeConfig "target" = true ∧
    Config.hasKey getJapanxArabObfuscationConfig "target" = true ∧
    resolvePreset (some "japan×arab") = .error "getDefaultConfig is not defined" ∧
    resolvePreset (some "japanxarab") = .error "getDefaultConfig is not defined" ∧
    resolvePreset (some "ultra-safe") = .error "getDefaultConfig is not defined" :=
  ⟨rfl, rfl, rfl, rfl, rfl, rfl, rfl, rfl, rfl, rfl, rfl, rfl, rfl⟩

/-- C8: the normalisation of the engine's result follows exactly the
documented priority: a string result is used directly; else a string `code`
field; else the callable `toString()`; else the `JSON.stringify`
serialization. -/
theorem c8_normalize_priority :
    (∀ s, normalizeResult (.vstr s) = s) ∧
    (∀ c ts j, normalizeResult (.vobj (some (.vstr c)) ts j) = c) ∧
    (∀ cf ts j, (∀ c, cf ≠ some (JsValue.vstr c)) →
        normalizeResult (.vobj cf (some ts) j) = ts) ∧
    (∀ cf j, (∀ c, cf ≠ some (JsValue.vstr c)) →
        normalizeResult (.vobj cf none j) = j) := by
  refine ⟨fun s => rfl, fun c ts j => rfl, ?_, ?_⟩
  · intro cf ts j h
    cases cf with
    | none => rfl
    | some v =>
        cases v with
        | vstr c => exact absurd rfl (h c)
        | vnull => rfl
        | vobj a b c => rfl
  · intro cf j h
    cases cf with
    | none => rfl
    | some v =>
        cases v with
        | vstr c => exact absurd rfl (h c)
        | vnull => rfl
        | vobj a b c => rfl

/-- C8 witness: the third and fourth branches at concrete non-string `code`
fields. -/
theorem c8_normalize_priority_witness :
    normalizeResult (.vobj none (some "TS") "JSON") = "TS" ∧
    normalizeResult (.vobj (some .vnull) none "JSON") = "JSON" :=
  ⟨c8_normalize_priority.2.2.1 none "TS" "JSON" (fun c h => by cases h),
   c8_normalize_priority.2.2.2 (some .vnull) "JSON" (fun c h => by
     simp at h)⟩

/-- C4: wrapping with both the anti-bypass flag and a (non-empty, hence
truthy) password places the anti-bypass guard block at the very start of the
output, textually before the password-gate block that immediately follows
it, and the original source text appears verbatim inside the output. -/
theorem c4_wrap_order (code p : String) (hp : p ≠ "") :
    (∃ rest, wrappedSource code true (some p) =
        TByypas ++ (gateBeforePassword ++ rest)) ∧
    (∃ pre post, wrappedSource code true (some p) = pre ++ (code ++ post)) := by
  have ht : truthy (some p) = true := by simp [truthy, hp]
  constructor
  · refine ⟨base64Encode (utf8Bytes p) ++ (gateAfterPassword ++
      (TByypas ++ ("\n" ++ (code ++ gateTail)))), ?_⟩
    simp [wrappedSource, ht, createPasswordTemplate, String.append_assoc]
  · refine ⟨TByypas ++ (gateBeforePassword ++ (base64Encode (utf8Bytes p) ++
      (gateAfterPassword ++ (TByypas ++ "\n")))), gateTail, ?_⟩
    simp [wrappedSource, ht, createPasswordTemplate, String.append_assoc]

/-- C4 witness: the decomposition at a concrete source text and password. -/
theorem c4_wrap_order_witness :
    (∃ rest, wrappedSource "console.log(1)" true (some "pw") =
        TByypas ++ (gateBeforePassword ++ rest)) ∧
    (∃ pre post, wrappedSource "console.log(1)" true (some "pw") =
        pre ++ ("console.log(1)" ++ post)) :=
  c4_wrap_order "console.log(1)" "pw" (by decide)

/-- C5: for every password, the generated template embeds exactly
`Buffer.from('<base64 of the password>', 'base64')` — with "secret"
encoding to the literal `c2VjcmV0` — and the gate's runtime logic reaches
the wrapped payload exactly when the entered value equals the decoded
plaintext, otherwise calling `process.exit(1)` (a non-zero status) without
reaching the payload. -/
theorem c5_password_gate (p code : String) :
    (∃ u v, createPasswordTemplate (base64Encode (utf8Bytes p)) code =
        u ++ ("Buffer.from(\x27" ++ (base64Encode (utf8Bytes p) ++
          ("\x27, \x27base64\x27)" ++ v)))) ∧
    base64Encode (utf8Bytes "secret") = "c2VjcmV0" ∧
    (∀ entered : List Nat,
      (runPasswordGate (base64Encode (utf8Bytes p)) entered =
          GateOutcome.runPayload ↔ entered = utf8Bytes p) ∧
      (entered ≠ utf8Bytes p →
        runPasswordGate (base64Encode (utf8Bytes p)) entered =
          GateOutcome.exitCode 1)) := by
  refine ⟨?_, by decide, ?_⟩
  · have hsplit1 : gateBeforePassword =
        "\n(async () => \x7b\nconst readline = require(\x27readline\x27);\nconst chalk = require(\x27chalk\x27);\nconst passwordBuffer = " ++
        "Buffer.from(\x27" := rfl
    have hsplit2 : gateAfterPassword =
        "\x27, \x27base64\x27)" ++
        ";\nconst correctPassword = passwordBuffer.toString(\x27utf8\x27);\nconst rl = readline.createInterface(\x7b\n  input: process.stdin,\n  output: process.stdout\n\x7d);\nconsole.clear();\nconsole.log(chalk.bold.red(\"🔑 MASUKKAN PASSWORD:\"));\nrl.question(\x27> \x27, (inputPassword) => \x7b\n  if (inputPassword !== correctPassword) \x7b\n    console.log(chalk.bold.red(\"❌ PASSWORD SALAH\"));\n    process.exit(1);\n  \x7d\n" := rfl
    refine ⟨TByypas ++
      "\n(async () => \x7b\nconst readline = require(\x27readline\x27);\nconst chalk = require(\x27chalk\x27);\nconst passwordBuffer = ",
      ";\nconst correctPassword = passwordBuffer.toString(\x27utf8\x27);\nconst rl = readline.createInterface(\x7b\n  input: process.stdin,\n  output: process.stdout\n\x7d);\nconsole.clear();\nconsole.log(chalk.bold.red(\"🔑 MASUKKAN PASSWORD:\"));\nrl.question(\x27> \x27, (inputPassword) => \x7b\n  if (inputPassword !== correctPassword) \x7b\n    console.log(chalk.bold.red(\"❌ PASSWORD SALAH\"));\n    process.exit(1);\n  \x7d\n" ++
      (code ++ gateTail), ?_⟩
    rw [createPasswordTemplate, hsplit1, hsplit2]
    simp only [String.append_assoc]
  · intro entered
    have hd := base64_utf8_roundtrip p
    constructor
    · unfold runPasswordGate
      rw [hd]
      by_cases h : entered = utf8Bytes p <;> simp [h]
    · intro hne
      unfold runPasswordGate
      rw [hd]
      simp [hne]

/-- C5 witness: at password "secret", the embedded literal is `c2VjcmV0`,
the matching entry runs the payload, and a mismatching entry exits with
status 1. -/
theorem c5_password_gate_witness :
    base64Encode (utf8Bytes "secret") = "c2VjcmV0" ∧
    runPasswordGate (base64Encode (utf8Bytes "secret")) (utf8Bytes "secret") =
      GateOutcome.runPayload ∧
    runPasswordGate (base64Encode (utf8Bytes "secret")) (utf8Bytes "guess") =
      GateOutcome.exitCode 1 :=
  ⟨(c5_password_gate "secret" "x").2.1,
   ((c5_password_gate "secret" "x").2.2 (utf8Bytes "secret")).1.mpr rfl,
   ((c5_password_gate "secret" "x").2.2 (utf8Bytes "guess")).2 (by decide)⟩

/-- C10: whenever a (truthy) password is supplied the output contains the
anti-bypass guard text even with the anti-bypass flag off, because the
password template unconditionally prepends it; and with both the flag and a
password, the guard text occurs twice — once at the start, before the
password-gate block, and again inside the gated payload, after the gate's
prompt text. -/
theorem c10_guard_duplication (code p : String) (hp : p ≠ "") :
    (∃ rest, wrappedSource code false (some p) = TByypas ++ rest) ∧
    (∃ mid tail,
      wrappedSource code true (some p) =
        TByypas ++ (mid ++ (TByypas ++ tail)) ∧
      mid = gateBeforePassword ++ (base64Encode (utf8Bytes p) ++
        gateAfterPassword) ∧
      tail = "\n" ++ (code ++ gateTail)) := by
  have ht : truthy (some p) = true := by simp [truthy, hp]
  constructor
  · refine ⟨gateBeforePassword ++ (base64Encode (utf8Bytes p) ++
      (gateAfterPassword ++ (code ++ gateTail))), ?_⟩
    simp [wrappedSource, ht, createPasswordTemplate, String.append_assoc]
  · refine ⟨_, _, ?_, rfl, rfl⟩
    simp [wrappedSource, ht, createPasswordTemplate, String.append_assoc]

/-- C10 witness: the duplication at a concrete source text and password. -/
theorem c10_guard_duplication_witness :
    ∃ rest, wrappedSource "console.log(1)" false (some "pw") =
      TByypas ++ rest :=
  (c10_guard_duplication "console.log(1)" "pw" (by decide)).1

/-- One pass of the sweep loop, expressed through `sweepRemoves`. -/
theorem sweepStep_eq (nowMs cutoff : Int) (removed : List String) (f : DirFile) :
    sweepStep nowMs cutoff removed f =
      if sweepRemoves nowMs cutoff f then removed ++ [f.name] else removed := by
  by_cases hs : f.statFails <;>
    by_cases ho : (f.isFile && decide (nowMs - f.mtimeMs > cutoff)) = true <;>
      by_cases hr : f.removeFails <;>
        simp [sweepStep, sweepRemoves, hs, ho, hr]

/-- The sweep loop accumulates exactly the entries `sweepRemoves` selects. -/
theorem sweep_foldl (nowMs cutoff : Int) (files : List DirFile) :
    ∀ acc : List String,
      files.foldl (sweepStep nowMs cutoff) acc =
        acc ++ (files.filter (sweepRemoves nowMs cutoff)).map DirFile.name := by
  induction files with
  | nil => intro acc; simp
  | cons f fs ih =>
      intro acc
      simp only [List.foldl_cons, List.filter_cons, sweepStep_eq]
      by_cases h : sweepRemoves nowMs cutoff f = true
      · rw [if_pos h, ih]
        simp [h]
      · rw [if_neg h, ih]
        simp [h]

/-- C9: the retention sweep over a listed directory removes exactly the
regular files strictly older than the cutoff whose `stat` and `remove` calls
succeed — so a per-file error skips only that file and every other entry is
still processed; with no per-file errors, exactly the old regular files go
and the newer ones stay (no name of a too-new entry is removed, given the
directory's names are distinct); and a directory-listing error yields an
empty removal set instead of propagating (the sweep is a total function). -/
theorem c9_retention_sweep (files : List DirFile) (nowMs days : Int) :
    (cleanupOldFiles (.ok files) nowMs days =
      (files.filter (sweepRemoves nowMs (days * 24 * 60 * 60 * 1000))).map
        DirFile.name) ∧
    ((∀ f ∈ files, f.statFails = false ∧ f.removeFails = false) →
      cleanupOldFiles (.ok files) nowMs days =
        (files.filter (fun f => f.isFile &&
          decide (nowMs - f.mtimeMs > days * 24 * 60 * 60 * 1000))).map
          DirFile.name) ∧
    ((files.map DirFile.name).Nodup →
      ∀ f ∈ files, ¬ nowMs - f.mtimeMs > days * 24 * 60 * 60 * 1000 →
        f.name ∉ cleanupOldFiles (.ok files) nowMs days) ∧
    (∀ e : String, cleanupOldFiles (.error e) nowMs days = []) := by
  have hbase : cleanupOldFiles (.ok files) nowMs days =
      (files.filter (sweepRemoves nowMs (days * 24 * 60 * 60 * 1000))).map
        DirFile.name := by
    rw [show cleanupOldFiles (.ok files) nowMs days =
        files.foldl (sweepStep nowMs (days * 24 * 60 * 60 * 1000)) [] from rfl,
      sweep_foldl]
    simp
  refine ⟨hbase, ?_, ?_, fun e => rfl⟩
  · intro hok
    rw [hbase]
    apply congrArg
    apply List.filter_congr
    intro f hf
    have := hok f hf
    simp [sweepRemoves, this.1, this.2]
  · intro hnodup f hf hnew
    rw [hbase]
    intro hmem
    obtain ⟨g, hg, hgname⟩ := List.mem_map.mp hmem
    have hgfiles : g ∈ files := List.mem_of_mem_filter hg
    have hgrem : sweepRemoves nowMs (days * 24 * 60 * 60 * 1000) g = true :=
      List.of_mem_filter hg
    have : g = f := List.inj_on_of_nodup_map hnodup hgfiles hf hgname
    subst this
    simp [sweepRemoves, hnew] at hgrem

/-- C9 witness: with one stale healthy file, one stale file whose `stat`
throws and one fresh file in the directory, exactly the healthy stale file is
removed, and the fresh file stays. -/
theorem c9_retention_sweep_witness :
    cleanupOldFiles (.ok demoDir) 1000000000000 7 = ["old.js"] ∧
    "new.js" ∉ cleanupOldFiles (.ok demoDir) 1000000000000 7 :=
  ⟨((c9_retention_sweep demoDir 1000000000000 7).1).trans (by decide),
   (c9_retention_sweep demoDir 1000000000000 7).2.2.1 (by decide)
     { name := "new.js", isFile := true, mtimeMs := 999999999999,
       statFails := false, removeFails := false } (by decide) (by decide)⟩

/-- C3: for every job whose event sequence contains a completion (`done`)
event — a successful job — the emitted progress percentages are exactly the
milestones 10, 25, 50, 90, 100, hence strictly increasing; exactly one
progress event carries 100; and the sequence ends with that single 100%
event immediately preceded by (paired with) the one `done` event, whose
download field is the artifact's retrieval path `/download/<filename>`. -/
theorem c3_success_events (w : JobWorld) (d : StartData)
    (evs : List SockEvent) (writes : List (String × String))
    (hrun : startHandler w d = (evs, writes))
    (hdone : ∃ f dl, SockEvent.done f dl ∈ evs) :
    progressPercents evs = [10, 25, 50, 90, 100] ∧
    List.Chain' (· < ·) (progressPercents evs) ∧
    (progressPercents evs).count 100 = 1 ∧
    ∃ front fname,
      evs = front ++ [SockEvent.done fname ("/download/" ++ fname),
                      SockEvent.progress "Finished!" 100] ∧
      ∀ e ∈ front, ∀ s, e ≠ SockEvent.progress s 100 := by
  obtain ⟨f, dl, hf⟩ := hdone
  unfold startHandler at hrun
  split at hrun
  · injection hrun with he hw
    subst he
    simp at hf
  · split at hrun
    · injection hrun with he hw
      subst he
      simp at hf
    · split at hrun
      · injection hrun with he hw
        subst he
        simp at hf
      · split at hrun
        · injection hrun with he hw
          subst he
          simp at hf
        · split at hrun
          · injection hrun with he hw
            subst he
            simp at hf
          · rename_i outName content heq
            injection hrun with he hw
            subst he
            refine ⟨by simp [progressPercents], by simp [progressPercents], by
              simp [progressPercents], ?_⟩
            refine ⟨[SockEvent.progress "Reading file..." 10,
                     SockEvent.progress "Selecting preset..." 25,
                     SockEvent.progress "Obfuscating..." 50,
                     SockEvent.progress "Writing result..." 90], outName, rfl, ?_⟩
            intro e he s
            fin_cases he <;> simp

/-- C3 witness: the milestone sequence of a concrete successful nova job. -/
theorem c3_success_events_witness :
    progressPercents (startHandler okWorld novaStart).1 =
      [10, 25, 50, 90, 100] :=
  (c3_success_events okWorld novaStart (startHandler okWorld novaStart).1
    (startHandler okWorld novaStart).2 rfl
    ⟨"enc_1_2.js", "/download/enc_1_2.js", by decide⟩).1
